import Mathlib

/-!
# Verification of the FFVB volleyball statistics engine

Shallow embedding of the statistics core of the FFVB dashboard
(`player.py`, `config.py`, `constants.py`, `utils.py`) and proofs about it.

Modelling conventions:
* A pandas `DataFrame` of actions is a `List Action`; a player’s indexed
  frame (whose index aligns with the `df_prev` / `df_next` adjacency
  frames) is a `List (Nat × Action)` of (index, row) pairs with unique
  indices, and `.loc`/`in .index` lookups are `List.lookup`.
* Python `dict`s (evaluation mappings, stats records) are association
  lists in insertion order; Python dict assignment is `dset` below,
  which overwrites in place or appends a fresh key at the end.
* Python floats are modelled by `ℚ`.  `round(x, 1)` is modelled by
  `pyRound1`; Python rounds ties to even on binary floats while
  `pyRound1` rounds ties up, but no statement in this file depends on
  tie behaviour (the same operator appears on both sides of every
  equation, and concrete inputs avoid ties).
* Exceptions (`raise ValueError`) are modelled with `Except String`.
-/

set_option maxRecDepth 4000

namespace FFVB

/-- One row of the event table (§3 of the spec; columns used by the core). -/
structure Action where
  skill : String
  evaluation_code : Char
  match_id : Nat
  set_number : Nat
  home_team_score : Int
  visiting_team_score : Int
  set_code : String
  attack_code : String
deriving DecidableEq, Repr

/-- An ordered evaluation mapping: the (symbol, label) pairs of a Python
dict in insertion order.  Keys are unique in any real dict. -/
abbrev EvalMapping := List (Char × String)

/-- A stats record: a Python dict from string key to number, in insertion
order. -/
abbrev Stats := List (String × ℚ)

/-- Python dict assignment `d[k] = v`: overwrite the value in place if the
key is present, otherwise append the new key at the end. -/
def dset (d : Stats) (k : String) (v : ℚ) : Stats :=
  if (d.lookup k).isSome then d.map (fun p => if p.1 = k then (k, v) else p)
  else d ++ [(k, v)]

/-- Model of Python `round(x, 1)` on rationals (see header note on ties). -/
def pyRound1 (q : ℚ) : ℚ := (Int.floor (q * 10 + 1/2) : ℚ) / 10

/-- `constants.py`: `SET_MOMENTS = ["Tout", "0-10", "10-20", "20+"]`. -/
def SET_MOMENTS : List String := ["Tout", "0-10", "10-20", "20+"]

/-- `config.py`: `SKILL_EVAL_MAPPINGS`, the per-skill ordered evaluation
mappings. -/
def SKILL_EVAL_MAPPINGS : List (String × EvalMapping) :=
  [("Reception", [('#', "Parfaite"), ('+', "Positif"), ('!', "Exclamative"),
                  ('-', "Négatif"), ('/', "Retour direct"), ('=', "Ace reçu")]),
   ("Block", [('#', "Kill bloc"), ('+', "Positif"), ('!', "Soutenu"),
              ('-', "Négatif"), ('/', "Faute de filet"), ('=', "Block out")]),
   ("Serve", [('#', "Ace"), ('/', "Bon"), ('+', "Positif"),
              ('!', "Exclamative"), ('-', "Negatif"), ('=', "Faute")]),
   ("Attack", [('#', "Point"), ('+', "Positif"), ('!', "Soutenu"),
               ('-', "Négatif"), ('/', "Contré"), ('=', "Faute")]),
   ("Dig", [('#', "Parfaite"), ('+', "Bonne"), ('!', "Soutien de bloc"),
            ('-', "Mauvaise"), ('/', "Renvoi direct"), ('=', "Non defendu")]),
   ("Set", [('#', "Parfaite"), ('+', "Bonne"), ('!', "Ok"),
            ('-', "Mauvaise"), ('/', "Nulle"), ('=', "Faute")])]

/-- `config.py`: `EFFICIENCY_CALCULATION` (skill ↦ formula string). -/
def EFFICIENCY_CALCULATION : List (String × String) :=
  [("Attack", "positive_first - negative_last_two"),
   ("Serve", "positive_first_two - negative_last"),
   ("Reception", "positive_first_two - negative_last_two"),
   ("Block", "positive_first - negative_last_two"),
   ("Dig", "positive_first_two - negative_last_two"),
   ("Set", "positive_first_two - negative_last")]

/-- `config.py`: `ERROR_CALCULATION` (skill ↦ error method string). -/
def ERROR_CALCULATION : List (String × String) :=
  [("Attack", "negative_last_two"), ("Serve", "negative_last"),
   ("Reception", "negative_last_two"), ("Block", "negative_last_two"),
   ("Dig", "negative_last_two"), ("Set", "negative_last")]

/-- A special-metric formula from `config.py`’s `SPECIAL_METRICS`, as the
restricted expression language the source actually uses: the empty string,
the variable `symbols_first`, or a sum `symbols_specific[c₁] + ... +
symbols_specific[cₙ]`.  (`player.py` evaluates these strings with `eval`
restricted to the `symbols_data` locals; this inductive captures exactly
the expressions occurring in the configuration.) -/
inductive MetricFormula where
  | emptyF : MetricFormula
  | symbolsFirst : MetricFormula
  | specificSum : List Char → MetricFormula
deriving DecidableEq, Repr

/-- `config.py`: `SPECIAL_METRICS` (skill ↦ metric name ↦ formula). -/
def SPECIAL_METRICS : List (String × List (String × MetricFormula)) :=
  [("Attack", [("% Kill", .symbolsFirst), ("% /", .specificSum ['/'])]),
   ("Serve", [("% Ace", .symbolsFirst),
              ("% Positif", .specificSum ['#', '+', '/']),
              ("% Frequence", .specificSum ['#', '+', '/', '!', '-'])]),
   ("Reception", [("% Parfaite", .symbolsFirst)]),
   ("Block", [("% Kill", .symbolsFirst)]),
   ("Dig", [("% Parfaite", .symbolsFirst)]),
   ("Set", [("% Jouable", .specificSum ['#', '+', '/', '!', '-']),
            ("% Faute", .specificSum ['=']),
            ("% FSO", .emptyF), ("% SO", .emptyF)])]

/-- `Player.get_action_df`: filter a player’s indexed action frame by
skill, match ids, set moment and set number, in the order of the source.
`match_filter` follows Python truthiness (`if match_filter:`): absent or
an empty list means no restriction.  A scalar `set_filter`/`match_filter`
is modelled as the corresponding singleton list (scalar equality and
one-element `isin` coincide). -/
def get_action_df (pdf : List (Nat × Action)) (skill : String)
    (set_moment : String) (match_filter : Option (List Nat))
    (set_filter : Option (List Nat)) : List (Nat × Action) :=
  let df := pdf.filter (fun r => decide (r.2.skill = skill))
  let df := match match_filter with
    | none => df
    | some [] => df
    | some ms => df.filter (fun r => decide (r.2.match_id ∈ ms))
  let df :=
    if set_moment ≠ "Tout" ∧ set_moment ∈ SET_MOMENTS then
      if set_moment = "0-10" then
        df.filter (fun r =>
          decide (r.2.home_team_score ≤ 10 ∨ r.2.visiting_team_score ≤ 10))
      else if set_moment = "10-20" then
        df.filter (fun r =>
          decide ((10 < r.2.home_team_score ∧ r.2.home_team_score < 20) ∨
                  (10 < r.2.visiting_team_score ∧ r.2.visiting_team_score < 20)))
      else if set_moment = "20+" then
        df.filter (fun r =>
          decide (20 ≤ r.2.home_team_score ∨ 20 ≤ r.2.visiting_team_score))
      else df
    else df
  let df := match set_filter with
    | none => df
    | some ns => df.filter (fun r => decide (r.2.set_number ∈ ns))
  df

/-- Number of actions of the slice carrying a given evaluation symbol
(`df['evaluation_code'].value_counts()` followed by `.get(symbol, 0)`). -/
def countSym (df : List Action) (c : Char) : Nat :=
  df.countP (fun a => decide (a.evaluation_code = c))

/-- The `symbols_data` record built by `Player.compute_skill_stats`. -/
structure SymbolsData where
  symbols_first : Nat
  symbols_first_two : Nat
  symbols_last : Nat
  symbols_last_two : Nat
  symbols_specific : Char → Nat

/-- Build `symbols_data` from the slice and the mapping, as in
`Player.compute_skill_stats`.  `symbols_specific` is modelled as a total
count function; the source builds a dict over the mapping’s symbols, and
every configured formula only reads symbols of the mapping. -/
def mkSymbolsData (df : List Action) (mapping : EvalMapping) : SymbolsData :=
  let symbols := mapping.map Prod.fst
  { symbols_first := match symbols with | [] => 0 | c :: _ => countSym df c
    symbols_first_two :=
      if 2 ≤ symbols.length then ((symbols.take 2).map (countSym df)).sum else 0
    symbols_last := match symbols.getLast? with
      | none => 0
      | some c => countSym df c
    symbols_last_two :=
      if 2 ≤ symbols.length then
        ((symbols.drop (symbols.length - 2)).map (countSym df)).sum
      else 0
    symbols_specific := fun c => countSym df c }

/-- The `label_counts` dict of `Player.compute_skill_stats`: per-label
action counts, accumulated over the mapping in insertion order
(`label_counts[label] = label_counts.get(label, 0) + count`). -/
def labelCounts (df : List Action) (mapping : EvalMapping) : Stats :=
  mapping.foldl
    (fun lc p => dset lc p.2 (((lc.lookup p.2).getD 0) + (countSym df p.1 : ℚ)))
    []

/-- `_calculate_efficiency_numerator` from `player.py`. -/
def calculate_efficiency_numerator (sd : SymbolsData) (formula : String) : Int :=
  if formula = "positive_first - negative_last_two" then
    (sd.symbols_first : Int) - sd.symbols_last_two
  else if formula = "positive_first_two - negative_last_two" then
    (sd.symbols_first_two : Int) - sd.symbols_last_two
  else if formula = "positive_first - negative_last" then
    (sd.symbols_first : Int) - sd.symbols_last
  else if formula = "positive_first_two - negative_last" then
    (sd.symbols_first_two : Int) - sd.symbols_last
  else 0

/-- `_calculate_error_count` from `player.py`. -/
def calculate_error_count (sd : SymbolsData) (error_method : String) : Nat :=
  if error_method = "negative_last" then sd.symbols_last
  else if error_method = "negative_last_two" then sd.symbols_last_two
  else 0

/-- `_evaluate_metric_formula` from `player.py`, on the formula language
actually present in `SPECIAL_METRICS` (the `emptyF` case is filtered out
by the caller before evaluation). -/
def evaluate_metric_formula (f : MetricFormula) (sd : SymbolsData) : Nat :=
  match f with
  | .emptyF => 0
  | .symbolsFirst => sd.symbols_first
  | .specificSum cs => (cs.map sd.symbols_specific).sum

/-- The fixed key list of the `total == 0` early return of
`Player.compute_skill_stats`. -/
def ZERO_KEYS : List String :=
  ["Total", "% Efficacité", "% Kill", "% Erreur", "% Parfaite",
   "% Ace", "% Positif", "% /", "% Faute", "% Jouable"]

/-- `Player.compute_skill_stats`: turn a slice of actions and an
evaluation mapping into the stats record, exactly following the source
(zero-total early return; label counts; per-label percentages;
efficiency, error and special metrics driven by the config tables keyed
on the first row’s skill). -/
def compute_skill_stats (df : List Action) (eval_mapping : EvalMapping) : Stats :=
  let total := df.length
  if total = 0 then ZERO_KEYS.map (fun k => (k, (0 : ℚ)))
  else
    let skill := match df with | [] => "" | a :: _ => a.skill
    let sd := mkSymbolsData df eval_mapping
    let lc := labelCounts df eval_mapping
    let stats : Stats := [("Total", (total : ℚ))]
    let stats := lc.foldl (fun s p => dset s p.1 p.2) stats
    let stats := lc.foldl
      (fun s p => dset s ("% " ++ p.1) (pyRound1 (p.2 / total * 100))) stats
    let stats :=
      match EFFICIENCY_CALCULATION.lookup skill with
      | some formula =>
          dset stats "% Efficacité"
            (pyRound1 ((calculate_efficiency_numerator sd formula : ℚ) / total * 100))
      | none => dset stats "% Efficacité" 0
    let stats :=
      match ERROR_CALCULATION.lookup skill with
      | some method =>
          let s := dset stats "% Erreur"
            (pyRound1 ((calculate_error_count sd method : ℚ) / total * 100))
          if skill = "Set" then dset s "% Faute" ((s.lookup "% Erreur").getD 0)
          else s
      | none => dset stats "% Erreur" 0
    let stats :=
      match SPECIAL_METRICS.lookup skill with
      | some metrics =>
          metrics.foldl (fun s m =>
            match m.2 with
            | .emptyF => dset s m.1 0
            | f => dset s m.1
                (pyRound1 ((evaluate_metric_formula f sd : ℚ) / total * 100))) stats
      | none => stats
    stats

/-- A player, as the slices `Player.__init__` stores: the indexed action
frame `df`, and the optional adjacency frames `df_prev` / `df_next`
(previous and next chronological row of the match, aligned on `df`’s
index; an index absent from them has no previous / next row). -/
structure Player where
  df : List (Nat × Action)
  df_prev : Option (List (Nat × Action))
  df_next : Option (List (Nat × Action))

/-- `Player._is_valid_attack`. -/
def is_valid_attack (a : Action) (attack_type : String) : Bool :=
  decide (a.skill = "Attack") && decide (a.attack_code = attack_type)

/-- `Player._filter_set_df`: the filtered passes (the `set_code` column is
always present in this model). -/
def filter_set_df (p : Player) (set_moment : String)
    (match_filter set_filter : Option (List Nat)) (set_type : String) :
    List (Nat × Action) :=
  let set_df := get_action_df p.df "Set" set_moment match_filter set_filter
  if set_type ≠ "Tous" then
    set_df.filter (fun r => decide (r.2.set_code = set_type))
  else set_df

/-- Result record of `Player.calculate_set_fso`. -/
structure FsoStats where
  total_fso_situations : Nat
  successful_fso : Nat
  pctFSO : ℚ
deriving DecidableEq, Repr

/-- Result record of `Player.calculate_set_so`. -/
structure SoStats where
  total_so_situations : Nat
  successful_so : Nat
  pctSO : ℚ
deriving DecidableEq, Repr

/-- One row of the `result_data` frame of `Player.calculate_set_fso`. -/
structure SeqRow3 where
  prev_skill : String
  next_skill : String
  next_evaluation : Char
deriving DecidableEq, Repr

/-- One row of the `result_data` frame of `Player.calculate_set_so`. -/
structure SeqRow2 where
  next_skill : String
  next_evaluation : Char
deriving DecidableEq, Repr

/-- `Player.calculate_set_fso`.  The source returns the all-zero record on
each of: missing adjacency frames, empty filtered passes, empty
`result_data`, and zero situations; the middle two early returns coincide
with the zero-situation path and are folded into it. -/
def calculate_set_fso (p : Player) (set_moment : String)
    (match_filter set_filter : Option (List Nat))
    (set_type attack_type : String) : FsoStats :=
  let set_df := filter_set_df p set_moment match_filter set_filter set_type
  match p.df_prev, p.df_next with
  | some dfp, some dfn =>
    if set_df.isEmpty then ⟨0, 0, 0⟩
    else
      let result_data : List SeqRow3 := set_df.filterMap (fun r =>
        match dfp.lookup r.1, dfn.lookup r.1 with
        | some prev, some next =>
          if attack_type ≠ "Tous" ∧ is_valid_attack next attack_type = false then
            none
          else some ⟨prev.skill, next.skill, next.evaluation_code⟩
        | _, _ => none)
      let fso_situations := result_data.filter (fun t =>
        decide (t.prev_skill = "Reception") && decide (t.next_skill = "Attack"))
      let total := fso_situations.length
      if total = 0 then ⟨0, 0, 0⟩
      else
        let succ := (fso_situations.filter
          (fun t => decide (t.next_evaluation = '#'))).length
        ⟨total, succ, pyRound1 ((succ : ℚ) / total * 100)⟩
  | _, _ => ⟨0, 0, 0⟩

/-- `Player.calculate_set_so` (as `calculate_set_fso`, without the
previous-row requirement). -/
def calculate_set_so (p : Player) (set_moment : String)
    (match_filter set_filter : Option (List Nat))
    (set_type attack_type : String) : SoStats :=
  let set_df := filter_set_df p set_moment match_filter set_filter set_type
  match p.df_next with
  | some dfn =>
    if set_df.isEmpty then ⟨0, 0, 0⟩
    else
      let result_data : List SeqRow2 := set_df.filterMap (fun r =>
        match dfn.lookup r.1 with
        | some next =>
          if attack_type ≠ "Tous" ∧ is_valid_attack next attack_type = false then
            none
          else some ⟨next.skill, next.evaluation_code⟩
        | none => none)
      let so_situations := result_data.filter (fun t =>
        decide (t.next_skill = "Attack"))
      let total := so_situations.length
      if total = 0 then ⟨0, 0, 0⟩
      else
        let succ := (so_situations.filter
          (fun t => decide (t.next_evaluation = '#'))).length
        ⟨total, succ, pyRound1 ((succ : ℚ) / total * 100)⟩
  | none => ⟨0, 0, 0⟩

/-- `Player.get_skill_stats`: filter, reject unregistered skills, return
the zeroed record on an empty slice, and merge `% FSO` / `% SO` into the
record for the Set skill. -/
def get_skill_stats (p : Player) (skill : String) (set_moment : String)
    (match_filter set_filter : Option (List Nat)) : Except String Stats :=
  let df := get_action_df p.df skill set_moment match_filter set_filter
  let total := df.length
  match SKILL_EVAL_MAPPINGS.lookup skill with
  | none => .error ("Aucune évaluation définie pour la compétence : " ++ skill)
  | some mapping =>
    if total = 0 then
      .ok ((compute_skill_stats (df.map Prod.snd) mapping).map
        (fun kv => (kv.1, (0 : ℚ))))
    else
      let stats := compute_skill_stats (df.map Prod.snd) mapping
      if skill = "Set" then
        let fso := calculate_set_fso p set_moment match_filter set_filter "Tous" "Tous"
        let so := calculate_set_so p set_moment match_filter set_filter "Tous" "Tous"
        .ok (dset (dset stats "% FSO" fso.pctFSO) "% SO" so.pctSO)
      else .ok stats

/-- `Player.get_skill_efficiency`, parametric in the evaluation-mapping
registry (a configuration table per §6 of the spec; the program instance
is `get_skill_efficiency` below).  The source raises the same
`ValueError` for an unregistered skill and for a mapping with fewer than
4 symbols. -/
def get_skill_efficiency_with (registry : List (String × EvalMapping))
    (p : Player) (skill : String) (set_moment : String)
    (match_filter set_filter : Option (List Nat)) : Except String ℚ :=
  let df := get_action_df p.df skill set_moment match_filter set_filter
  if df.isEmpty then .ok 0
  else
    match registry.lookup skill with
    | none =>
        .error ("Pas assez de symboles d’évaluation pour la compétence : " ++ skill)
    | some mapping =>
      if mapping.length < 4 then
        .error ("Pas assez de symboles d’évaluation pour la compétence : " ++ skill)
      else
        let symbols := mapping.map Prod.fst
        let positive_symbols := symbols.take 2
        let negative_symbols := symbols.drop (symbols.length - 2)
        let positives := df.countP
          (fun r => decide (r.2.evaluation_code ∈ positive_symbols))
        let negatives := df.countP
          (fun r => decide (r.2.evaluation_code ∈ negative_symbols))
        if negatives = 0 then .ok (if 0 < positives then 100 else 0)
        else .ok (pyRound1 ((positives : ℚ) / negatives * 100))

/-- `Player.get_skill_efficiency` with the program’s registry. -/
def get_skill_efficiency (p : Player) (skill : String) (set_moment : String)
    (match_filter set_filter : Option (List Nat)) : Except String ℚ :=
  get_skill_efficiency_with SKILL_EVAL_MAPPINGS p skill set_moment
    match_filter set_filter

/-- The keys of a stats record (`stats.keys()`). -/
def statKeys (s : Stats) : List String := s.map Prod.fst

/-- `utils.aggregate_team_stats`: collect every key other than `Total`
occurring in some player’s stats record (the source collects them in a
Python `set`, whose iteration order is unspecified; we keep first-seen
order — every consumer reads the record by key, never by position), zero
them together with `Total`, then add up, key by key, the FULL stats
record of every player (label counts, `Total`, and the precomputed
percentage entries alike). -/
def aggregate_team_stats (players : List Player) (skill : String)
    (moment : String) (match_filter set_filter : Option (List Nat)) :
    Except String Stats :=
  (players.foldlM (fun categories p =>
      (get_skill_stats p skill moment match_filter set_filter).map (fun stats =>
        (statKeys stats).foldl (fun cats k =>
          if k ≠ "Total" ∧ k ∉ cats then cats ++ [k] else cats) categories))
    ([] : List String)).bind (fun categories =>
    players.foldlM (fun team_stats p =>
        (get_skill_stats p skill moment match_filter set_filter).map (fun stats =>
          stats.foldl (fun ts kv =>
            dset ts kv.1 (((ts.lookup kv.1).getD 0) + kv.2)) team_stats))
      ((categories ++ ["Total"]).map (fun k => (k, (0 : ℚ)))))

/-! ## Spec-side definitions

Predicates written from the words of the spec sentences under
verification, to be compared with the source translation above. -/

/-- Spec §4.1, match constraint: `match_id` is in the provided set; an
absent or empty selection places no restriction. -/
def matchKeep (match_filter : Option (List Nat)) (r : Nat × Action) : Bool :=
  match match_filter with
  | none => true
  | some [] => true
  | some ms => decide (r.2.match_id ∈ ms)

/-- Spec §4.1, set constraint: `set_number` is in the provided set. -/
def setKeep (set_filter : Option (List Nat)) (r : Nat × Action) : Bool :=
  match set_filter with
  | none => true
  | some ns => decide (r.2.set_number ∈ ns)

/-- Spec §4.1, 4-bucket moment scheme as the claim states it: "0-10" =
either score ≤ 10; "10-20" = either score strictly between 10 and 20;
"20+" = either score ≥ 20 (OR semantics over the two scores). -/
def momentBucketKeep (set_moment : String) (a : Action) : Bool :=
  if set_moment = "0-10" then
    decide (a.home_team_score ≤ 10 ∨ a.visiting_team_score ≤ 10)
  else if set_moment = "10-20" then
    decide ((10 < a.home_team_score ∧ a.home_team_score < 20) ∨
            (10 < a.visiting_team_score ∧ a.visiting_team_score < 20))
  else if set_moment = "20+" then
    decide (20 ≤ a.home_team_score ∨ 20 ≤ a.visiting_team_score)
  else true

/-- Spec §4.3: a filtered pass is an FSO situation when its immediately
preceding row exists and is a Reception and its immediately following
row exists and is an Attack. -/
def isFsoSituation (dfp dfn : List (Nat × Action)) (r : Nat × Action) : Bool :=
  (match dfp.lookup r.1 with
   | some prev => decide (prev.skill = "Reception")
   | none => false) &&
  (match dfn.lookup r.1 with
   | some next => decide (next.skill = "Attack")
   | none => false)

/-- Spec §4.3: a successful FSO situation is one whose following Attack
carries the kill symbol `#`. -/
def isSuccessfulFsoSituation (dfp dfn : List (Nat × Action))
    (r : Nat × Action) : Bool :=
  isFsoSituation dfp dfn r &&
  (match dfn.lookup r.1 with
   | some next => decide (next.evaluation_code = '#')
   | none => false)

/-- Spec §4.2 point 5: the error symbols of a skill — the last symbol of
the mapping for Serve and Set, the last two symbols for the other
skills. -/
def errorSymbols (skill : String) (mapping : EvalMapping) : List Char :=
  if skill = "Serve" ∨ skill = "Set" then
    (mapping.map Prod.fst).drop (mapping.length - 1)
  else (mapping.map Prod.fst).drop (mapping.length - 2)

/-- Lookup of a key in the record of a query that may have been rejected. -/
def okLookup (e : Except String Stats) (k : String) : Option ℚ :=
  match e with
  | .ok s => s.lookup k
  | .error _ => none

/-! ## Concrete fixtures for witnesses and counterexamples -/

/-- An action with the given skill and symbol, mid-set scores. -/
def mkAct (sk : String) (c : Char) : Action :=
  ⟨sk, c, 1, 1, 5, 5, "", ""⟩

/-- Attack action at score 5–15 (inside the "0-10" bucket). -/
def actEarly : Action := ⟨"Attack", '#', 1, 1, 5, 15, "", ""⟩

/-- Attack action at score 15–18 (outside the "0-10" bucket). -/
def actMid : Action := ⟨"Attack", '=', 1, 2, 15, 18, "", ""⟩

/-- Two-row indexed frame for the filter witnesses. -/
def pdfW : List (Nat × Action) := [(0, actEarly), (1, actMid)]

/-- A player with two Attack actions, one kill and one fault. -/
def attackP : Player := ⟨[(0, mkAct "Attack" '#'), (1, mkAct "Attack" '=')], none, none⟩

/-- A player with no actions at all. -/
def emptyP : Player := ⟨[], none, none⟩

/-- A setter with one pass, preceded by a Reception and followed by a
scoring Attack (adjacency frames aligned on index 1). -/
def setP : Player :=
  ⟨[(1, mkAct "Set" '+')],
   some [(1, mkAct "Reception" '+')],
   some [(1, mkAct "Attack" '#')]⟩

/-- A registry whose only mapping has 3 symbols (fewer than 4). -/
def miniRegistry : List (String × EvalMapping) :=
  [("Mini", [('#', "A"), ('+', "B"), ('=', "C")])]

/-- A player with one action of the skill of `miniRegistry`. -/
def miniP : Player := ⟨[(0, mkAct "Mini" '#')], none, none⟩

/-- A two-symbol mapping with pairwise distinct labels. -/
def mapC9 : EvalMapping := [('+', "A"), ('-', "B")]

/-- An action whose (valid, §3) evaluation code is outside `mapC9`. -/
def actC9 : Action := mkAct "X" '#'

/-- First teammate: a single perfect reception. -/
def p1C8 : Player := ⟨[(0, mkAct "Reception" '#')], none, none⟩

/-- Second teammate: three negative receptions. -/
def p2C8 : Player :=
  ⟨[(1, mkAct "Reception" '-'), (2, mkAct "Reception" '-'),
    (3, mkAct "Reception" '-')], none, none⟩

/-- Spec §4.2 point 4: `positive = count(evaluation_code in symbols[0:2])`
for an ordered mapping. -/
def posCount (mapping : EvalMapping) (df : List (Nat × Action)) : Nat :=
  df.countP (fun r => decide (r.2.evaluation_code ∈ (mapping.map Prod.fst).take 2))

/-- Spec §4.2 point 4: `negative = count(evaluation_code in symbols[-2:])`
for an ordered mapping. -/
def negCount (mapping : EvalMapping) (df : List (Nat × Action)) : Nat :=
  df.countP (fun r =>
    decide (r.2.evaluation_code ∈ (mapping.map Prod.fst).drop (mapping.length - 2)))

/-! ## Claim C10 — unknown moment strings apply no filter -/

/-- **C10**: for every `set_moment` string that is neither `"Tout"` nor one
of the registered bucket names `"0-10"`, `"10-20"`, `"20+"` (for example
the legacy values `"Début"`, `"Milieu"`, `"Fin"`), `get_action_df`
applies no moment restriction at all and returns the same result as
`set_moment = "Tout"`. -/
theorem C10_unknown_moment_is_tout (pdf : List (Nat × Action)) (skill m : String)
    (mf sf : Option (List Nat)) (hT : m ≠ "Tout")
    (hb : m ∉ (["0-10", "10-20", "20+"] : List String)) :
    get_action_df pdf skill m mf sf = get_action_df pdf skill "Tout" mf sf := by
  have hm : ¬ (m ≠ "Tout" ∧ m ∈ SET_MOMENTS) := by
    rintro ⟨h1, h2⟩
    simp only [SET_MOMENTS, List.mem_cons, List.not_mem_nil, or_false] at h2
    rcases h2 with h | h | h | h
    · exact hT h
    all_goals exact hb (by simp [h])
  have h2 : ¬ ("Tout" ≠ "Tout" ∧ "Tout" ∈ SET_MOMENTS) := by simp
  simp only [get_action_df, if_neg hm, if_neg h2]

/-- Witness for C10 at the legacy moment `"Début"`. -/
theorem C10_unknown_moment_is_tout_witness :
    ("Début" ≠ "Tout") ∧ ("Début" ∉ (["0-10", "10-20", "20+"] : List String)) ∧
    get_action_df pdfW "Attack" "Début" none none =
      get_action_df pdfW "Attack" "Tout" none none :=
  ⟨by decide, by decide,
   C10_unknown_moment_is_tout pdfW "Attack" "Début" none none (by decide) (by decide)⟩

/-! ## Claim C2 — moment buckets use OR semantics, other filters AND -/

/-- **C2**: for every action and every moment bucket of the 4-bucket
scheme, the moment filter of `get_action_df` keeps the action iff, for
"0-10", either score ≤ 10; for "10-20", either score strictly between 10
and 20; for "20+", either score ≥ 20 (OR semantics over the two scores);
and the skill, match and set constraints are conjoined with it (AND
semantics): the whole query is one filter by the conjunction. -/
theorem C2_moment_bucket_conjunction (pdf : List (Nat × Action)) (skill m : String)
    (mf sf : Option (List Nat)) (hb : m ∈ (["0-10", "10-20", "20+"] : List String)) :
    get_action_df pdf skill m mf sf =
      pdf.filter (fun r => decide (r.2.skill = skill) && matchKeep mf r &&
        momentBucketKeep m r.2 && setKeep sf r) := by
  simp only [List.mem_cons, List.not_mem_nil, or_false] at hb
  rcases hb with h | h | h <;> subst h <;>
    rcases mf with _ | ⟨_ | ⟨x, xs⟩⟩ <;> rcases sf with _ | ns <;>
    simp only [get_action_df, SET_MOMENTS, matchKeep, setKeep, momentBucketKeep,
      List.filter_filter, ne_eq, List.mem_cons, List.not_mem_nil, String.reduceEq,
      reduceIte, not_false_eq_true, true_and, or_self, or_false, false_or, and_self] <;>
    (apply List.filter_congr; intro r hr;
     simp only [Bool.true_and, Bool.and_true, Bool.and_assoc, Bool.and_comm, Bool.and_left_comm])

/-- Witness for C2 in the "0-10" bucket on a two-row frame. -/
theorem C2_moment_bucket_conjunction_witness :
    ("0-10" ∈ (["0-10", "10-20", "20+"] : List String)) ∧
    get_action_df pdfW "Attack" "0-10" none none =
      pdfW.filter (fun r => decide (r.2.skill = "Attack") && matchKeep none r &&
        momentBucketKeep "0-10" r.2 && setKeep none r) :=
  ⟨by decide, C2_moment_bucket_conjunction pdfW "Attack" "0-10" none none (by decide)⟩

/-! ## Claim C1 — the efficiency formula of get_skill_efficiency -/

/-- **C1**: for every non-empty action slice and every skill whose
evaluation mapping has at least 4 symbols, the efficiency returned by
`get_skill_efficiency` equals: with `positive` the number of actions
whose `evaluation_code` is one of the first two symbols of the mapping
and `negative` the number whose code is one of the last two symbols, if
`negative == 0` then 100.0 when `positive > 0` and 0.0 when
`positive == 0`, otherwise `round(100 * positive / negative, 1)` — a
ratio that may exceed 100. -/
theorem C1_efficiency_ratio (p : Player) (skill m : String)
    (mf sf : Option (List Nat)) (mapping : EvalMapping)
    (hm : SKILL_EVAL_MAPPINGS.lookup skill = some mapping)
    (h4 : 4 ≤ mapping.length)
    (hne : get_action_df p.df skill m mf sf ≠ []) :
    get_skill_efficiency p skill m mf sf = .ok
      (if negCount mapping (get_action_df p.df skill m mf sf) = 0 then
        (if 0 < posCount mapping (get_action_df p.df skill m mf sf) then (100 : ℚ)
         else 0)
       else
        pyRound1 (100 * (posCount mapping (get_action_df p.df skill m mf sf) : ℚ) /
          (negCount mapping (get_action_df p.df skill m mf sf) : ℚ))) := by
  have hE : (get_action_df p.df skill m mf sf).isEmpty = false := by
    exact List.isEmpty_eq_false.mpr hne
  simp only [get_skill_efficiency, get_skill_efficiency_with, hE, Bool.false_eq_true,
    if_false, hm, posCount, negCount]
  rw [if_neg (by omega : ¬ mapping.length < 4)]
  simp only [List.length_map]
  split_ifs with h1 h2 <;> try rfl
  congr 1
  ring_nf

/-- Witness for C1: a player with one kill and one fault attack;
efficiency `round(100 * 1 / 1, 1) = 100.0`. -/
theorem C1_efficiency_ratio_witness :
    SKILL_EVAL_MAPPINGS.lookup "Attack" =
      some [('#', "Point"), ('+', "Positif"), ('!', "Soutenu"),
            ('-', "Négatif"), ('/', "Contré"), ('=', "Faute")] ∧
    4 ≤ ([('#', "Point"), ('+', "Positif"), ('!', "Soutenu"),
          ('-', "Négatif"), ('/', "Contré"), ('=', "Faute")] : EvalMapping).length ∧
    get_action_df attackP.df "Attack" "Tout" none none ≠ [] ∧
    get_skill_efficiency attackP "Attack" "Tout" none none = .ok
      (if negCount [('#', "Point"), ('+', "Positif"), ('!', "Soutenu"),
            ('-', "Négatif"), ('/', "Contré"), ('=', "Faute")]
            (get_action_df attackP.df "Attack" "Tout" none none) = 0 then
        (if 0 < posCount [('#', "Point"), ('+', "Positif"), ('!', "Soutenu"),
            ('-', "Négatif"), ('/', "Contré"), ('=', "Faute")]
            (get_action_df attackP.df "Attack" "Tout" none none) then (100 : ℚ)
         else 0)
       else
        pyRound1 (100 * (posCount [('#', "Point"), ('+', "Positif"), ('!', "Soutenu"),
            ('-', "Négatif"), ('/', "Contré"), ('=', "Faute")]
            (get_action_df attackP.df "Attack" "Tout" none none) : ℚ) /
          (negCount [('#', "Point"), ('+', "Positif"), ('!', "Soutenu"),
            ('-', "Négatif"), ('/', "Contré"), ('=', "Faute")]
            (get_action_df attackP.df "Attack" "Tout" none none) : ℚ))) :=
  ⟨by decide, by decide, by decide,
   C1_efficiency_ratio attackP "Attack" "Tout" none none
     [('#', "Point"), ('+', "Positif"), ('!', "Soutenu"),
      ('-', "Négatif"), ('/', "Contré"), ('=', "Faute")]
     (by decide) (by decide) (by decide)⟩

/-! ## Claim C7 — a mapping with fewer than 4 symbols -/

/-- Counterexample to **C7**: with a registered 3-symbol mapping and a
non-empty slice, `get_skill_efficiency` raises the `ValueError` instead
of reporting 0.0. -/
theorem C7_small_mapping_counterexample :
    miniRegistry.lookup "Mini" = some [('#', "A"), ('+', "B"), ('=', "C")] ∧
    ([('#', "A"), ('+', "B"), ('=', "C")] : EvalMapping).length < 4 ∧
    get_action_df miniP.df "Mini" "Tout" none none ≠ [] ∧
    get_skill_efficiency_with miniRegistry miniP "Mini" "Tout" none none =
      .error "Pas assez de symboles d’évaluation pour la compétence : Mini" ∧
    ∀ q : ℚ, get_skill_efficiency_with miniRegistry miniP "Mini" "Tout" none none ≠
      .ok q := by
  refine ⟨by decide, by decide, by decide, by rfl, ?_⟩
  intro q h
  rw [show get_skill_efficiency_with miniRegistry miniP "Mini" "Tout" none none =
    .error "Pas assez de symboles d’évaluation pour la compétence : Mini" from rfl] at h
  exact Except.noConfusion h

/-- **C7 amended**: for every registry, every skill whose registered
mapping has fewer than 4 symbols and every non-empty filtered slice,
`get_skill_efficiency` raises the `ValueError` (it reports 0.0 only for
an empty slice, checked before the mapping). -/
theorem C7_small_mapping_raises (registry : List (String × EvalMapping))
    (p : Player) (skill m : String) (mf sf : Option (List Nat))
    (mapping : EvalMapping) (hm : registry.lookup skill = some mapping)
    (h4 : mapping.length < 4)
    (hne : get_action_df p.df skill m mf sf ≠ []) :
    get_skill_efficiency_with registry p skill m mf sf =
      .error ("Pas assez de symboles d’évaluation pour la compétence : " ++ skill) := by
  have hE : (get_action_df p.df skill m mf sf).isEmpty = false := by
    exact List.isEmpty_eq_false.mpr hne
  simp only [get_skill_efficiency_with, hE, Bool.false_eq_true, if_false, hm]
  rw [if_pos h4]

/-- Witness for the amended C7 at the 3-symbol registry. -/
theorem C7_small_mapping_raises_witness :
    miniRegistry.lookup "Mini" = some [('#', "A"), ('+', "B"), ('=', "C")] ∧
    ([('#', "A"), ('+', "B"), ('=', "C")] : EvalMapping).length < 4 ∧
    get_action_df miniP.df "Mini" "Tout" none none ≠ [] ∧
    get_skill_efficiency_with miniRegistry miniP "Mini" "Tout" none none =
      .error ("Pas assez de symboles d’évaluation pour la compétence : " ++ "Mini") :=
  ⟨by decide, by decide, by decide,
   C7_small_mapping_raises miniRegistry miniP "Mini" "Tout" none none
     [('#', "A"), ('+', "B"), ('=', "C")] (by decide) (by decide) (by decide)⟩

/-! ## Claim C5 — unknown skill raises, empty slice returns zeros -/

/-- **C5**: `get_skill_stats` raises (rejects the query) iff the requested
skill has no registered evaluation mapping; for every registered skill
whose filtered slice is empty it returns normally a stats record in
which `Total` is 0 and every other key is 0. -/
theorem C5_unknown_skill_raises_empty_zeroes (p : Player) (skill m : String)
    (mf sf : Option (List Nat)) :
    ((∃ e, get_skill_stats p skill m mf sf = .error e) ↔
      SKILL_EVAL_MAPPINGS.lookup skill = none) ∧
    (∀ mapping, SKILL_EVAL_MAPPINGS.lookup skill = some mapping →
      get_action_df p.df skill m mf sf = [] →
      ∃ s, get_skill_stats p skill m mf sf = .ok s ∧
        s.lookup "Total" = some 0 ∧ ∀ kv ∈ s, kv.2 = (0 : ℚ)) := by
  constructor
  · constructor
    · rintro ⟨e, he⟩
      cases hl : SKILL_EVAL_MAPPINGS.lookup skill with
      | none => rfl
      | some mapping =>
        exfalso
        simp only [get_skill_stats, hl] at he
        by_cases h0 : (get_action_df p.df skill m mf sf).length = 0
        · rw [if_pos h0] at he
          exact Except.noConfusion he
        · rw [if_neg h0] at he
          by_cases hs : skill = "Set"
          · rw [if_pos hs] at he
            exact Except.noConfusion he
          · rw [if_neg hs] at he
            exact Except.noConfusion he
    · intro hl
      refine ⟨"Aucune évaluation définie pour la compétence : " ++ skill, ?_⟩
      simp only [get_skill_stats, hl]
  · intro mapping hm hdf
    refine ⟨(compute_skill_stats ([] : List Action) mapping).map
      (fun kv => (kv.1, (0 : ℚ))), ?_, ?_, ?_⟩
    · simp only [get_skill_stats, hm, hdf, List.length_nil, List.map_nil, if_pos]
    · rfl
    · intro kv hkv
      simp only [List.mem_map] at hkv
      obtain ⟨a, _, rfl⟩ := hkv
      rfl

/-- Witness for C5: a player with no actions and the Reception skill. -/
theorem C5_unknown_skill_raises_empty_zeroes_witness :
    SKILL_EVAL_MAPPINGS.lookup "Reception" =
      some [('#', "Parfaite"), ('+', "Positif"), ('!', "Exclamative"),
            ('-', "Négatif"), ('/', "Retour direct"), ('=', "Ace reçu")] ∧
    get_action_df emptyP.df "Reception" "Tout" none none = [] ∧
    (∃ s, get_skill_stats emptyP "Reception" "Tout" none none = .ok s ∧
      s.lookup "Total" = some 0 ∧ ∀ kv ∈ s, kv.2 = (0 : ℚ)) :=
  ⟨by decide, by decide,
   (C5_unknown_skill_raises_empty_zeroes emptyP "Reception" "Tout" none none).2
     [('#', "Parfaite"), ('+', "Positif"), ('!', "Exclamative"),
      ('-', "Négatif"), ('/', "Retour direct"), ('=', "Ace reçu")]
     (by decide) (by decide)⟩

/-! ## Dict and counting helpers -/

theorem map_keyupdate_id (t : Stats) (k : String) (v : ℚ) (h : t.lookup k = none) :
    t.map (fun p => if p.1 = k then (k, v) else p) = t := by
  induction t with
  | nil => rfl
  | cons p r ih =>
    obtain ⟨a, b⟩ := p
    by_cases hak : k = a
    · subst hak
      simp [List.lookup_cons] at h
    · have hka : (k == a) = false := beq_eq_false_iff_ne.mpr hak
      simp only [List.lookup_cons, hka] at h
      have hak2 : a ≠ k := fun hh => hak hh.symm
      simp only [List.map_cons, if_neg hak2, ih h]

theorem lookup_dset_self (s : Stats) (k : String) (v : ℚ) :
    (dset s k v).lookup k = some v := by
  induction s with
  | nil => simp [dset]
  | cons p t ih =>
    obtain ⟨a, b⟩ := p
    simp only [dset]
    by_cases ha : k = a
    · subst ha
      have hc : (((k, b) :: t).lookup k).isSome := by simp [List.lookup_cons]
      rw [if_pos hc]
      simp [List.lookup_cons]
    · have hka : (k == a) = false := beq_eq_false_iff_ne.mpr ha
      have hak : a ≠ k := fun hh => ha hh.symm
      by_cases hts : (t.lookup k).isSome
      · rw [if_pos (by simp [List.lookup_cons, hka, hts])]
        simp only [List.map_cons, if_neg hak, List.lookup_cons, hka]
        simp only [dset, if_pos hts] at ih
        exact ih
      · rw [if_neg (by simp [List.lookup_cons, hka, hts])]
        simp only [List.cons_append, List.lookup_cons, hka]
        simp only [dset, if_neg hts] at ih
        exact ih

theorem lookup_dset_ne (s : Stats) (q k : String) (v : ℚ) (h : q ≠ k) :
    (dset s k v).lookup q = s.lookup q := by
  have hqk : (q == k) = false := beq_eq_false_iff_ne.mpr h
  induction s with
  | nil => simp [dset, List.lookup_cons, hqk]
  | cons p t ih =>
    obtain ⟨a, b⟩ := p
    simp only [dset]
    by_cases hc : (((a, b) :: t).lookup k).isSome
    · rw [if_pos hc]
      by_cases hak : a = k
      · subst hak
        -- head key is a = k, q ≠ a
        have hqa : (q == a) = false := beq_eq_false_iff_ne.mpr h
        simp only [List.map_cons, List.lookup_cons, if_true, hqa]
        by_cases hts : (t.lookup a).isSome
        · simp only [dset, if_pos hts] at ih
          exact ih
        · rw [map_keyupdate_id t a v (Option.not_isSome_iff_eq_none.mp hts)]
      · -- head key a ≠ k
        have hc2 : (t.lookup k).isSome := by
          have hka : (k == a) = false := beq_eq_false_iff_ne.mpr (fun hh => hak hh.symm)
          simpa [List.lookup_cons, hka] using hc
        simp only [List.map_cons, if_neg hak, List.lookup_cons]
        by_cases hqa : q = a
        · subst hqa
          simp [List.lookup_cons]
        · have hqa2 : (q == a) = false := beq_eq_false_iff_ne.mpr hqa
          simp only [hqa2]
          simp only [dset, if_pos hc2] at ih
          exact ih
    · rw [if_neg hc]
      simp only [List.cons_append, List.lookup_cons]
      by_cases hqa : q = a
      · subst hqa
        simp
      · have hqa2 : (q == a) = false := beq_eq_false_iff_ne.mpr hqa
        simp only [hqa2]
        have hts : ¬ (t.lookup k).isSome := by
          intro hsome
          apply hc
          cases hbeq : (k == a) with
          | false => simpa [List.lookup_cons, hbeq] using hsome
          | true => simp [List.lookup_cons, hbeq]
        simp only [dset, if_neg hts] at ih
        exact ih

/-- Membership in a one-symbol list is counting that symbol. -/
theorem countP_mem_single (df : List Action) (c : Char) :
    df.countP (fun a => decide (a.evaluation_code ∈ [c])) = countSym df c := by
  simp [countSym]

/-- Membership in a two-symbol list splits into the two symbol counts. -/
theorem countP_mem_pair (df : List Action) (c d : Char) (h : c ≠ d) :
    df.countP (fun a => decide (a.evaluation_code ∈ [c, d])) =
      countSym df c + countSym df d := by
  induction df with
  | nil => rfl
  | cons a t ih =>
    simp only [countSym, List.countP_cons, List.mem_cons, List.not_mem_nil,
      or_false] at ih ⊢
    rw [ih]
    rcases eq_or_ne a.evaluation_code c with h1 | h1 <;>
      rcases eq_or_ne a.evaluation_code d with h2 | h2
    · exact absurd (h1.symm.trans h2) h
    all_goals simp [h1, h2, h, Ne.symm h] <;> omega

/-! ## Claim C6 — the error-rate formula of compute_skill_stats -/

/-- Keys untouched by the special-metric fold keep their lookup. -/
theorem lookup_special_foldl_ne (q : String) (l : List (String × MetricFormula))
    (sd : SymbolsData) (n : ℚ) (s : Stats) (h : ∀ m ∈ l, m.1 ≠ q) :
    (l.foldl (fun s m =>
      match m.2 with
      | .emptyF => dset s m.1 0
      | f => dset s m.1
          (pyRound1 ((evaluate_metric_formula f sd : ℚ) / n * 100))) s).lookup q =
      s.lookup q := by
  induction l generalizing s with
  | nil => rfl
  | cons m t ih =>
    simp only [List.foldl_cons]
    rw [ih _ (fun x hx => h x (List.mem_cons_of_mem m hx))]
    have hq : q ≠ m.1 := Ne.symm (h m (List.mem_cons_self m t))
    cases hm2 : m.2 <;> exact lookup_dset_ne _ _ _ _ hq

/-- Structure of the `% Erreur` entry of `compute_skill_stats` for a
non-empty slice whose skill has error and special-metric configuration
rows, none of whose special metrics is named `% Erreur`. -/
theorem compute_stats_erreur_lookup (df : List Action) (mapping : EvalMapping)
    (sk : String) (method : String) (metrics : List (String × MetricFormula))
    (hne : df ≠ [])
    (hhead : df.head?.map Action.skill = some sk)
    (hmeth : ERROR_CALCULATION.lookup sk = some method)
    (hmet : SPECIAL_METRICS.lookup sk = some metrics)
    (hq : ∀ m ∈ metrics, m.1 ≠ "% Erreur") :
    (compute_skill_stats df mapping).lookup "% Erreur" =
      some (pyRound1 ((calculate_error_count (mkSymbolsData df mapping) method : ℚ) /
        df.length * 100)) := by
  obtain ⟨a, rest, rfl⟩ := List.exists_cons_of_ne_nil hne
  simp only [List.head?_cons, Option.map_some', Option.some.injEq] at hhead
  have h0 : ¬ ((a :: rest).length = 0) := by simp
  simp only [compute_skill_stats, if_neg h0, hhead, hmeth, hmet]
  by_cases hset : sk = "Set"
  · rw [if_pos hset]
    rw [lookup_special_foldl_ne _ _ _ _ _ hq]
    rw [lookup_dset_ne _ _ _ _ (by decide : "% Erreur" ≠ "% Faute")]
    rw [lookup_dset_self]
  · rw [if_neg hset]
    rw [lookup_special_foldl_ne _ _ _ _ _ hq]
    rw [lookup_dset_self]

/-- **C6**: for every non-empty action slice, the `% Erreur` value of
`compute_skill_stats` equals `round(100 * error_count / Total, 1)`,
where `error_count` counts actions whose `evaluation_code` is the last
symbol of the mapping for Serve and Set, and one of the last two symbols
of the mapping for Attack, Reception, Block and Dig. -/
theorem C6_error_rate (sk : String) (mapping : EvalMapping) (df : List Action)
    (hsk : sk ∈ (["Serve", "Set", "Attack", "Reception", "Block", "Dig"] : List String))
    (hm : SKILL_EVAL_MAPPINGS.lookup sk = some mapping)
    (hne : df ≠ [])
    (hhead : df.head?.map Action.skill = some sk) :
    (compute_skill_stats df mapping).lookup "% Erreur" =
      some (pyRound1 (100 * (df.countP (fun a =>
        decide (a.evaluation_code ∈ errorSymbols sk mapping)) : ℚ) / df.length)) := by
  simp only [List.mem_cons, List.not_mem_nil, or_false] at hsk
  rcases hsk with h | h | h | h | h | h
  · subst h
    have hmap : mapping = [('#', "Ace"), ('/', "Bon"), ('+', "Positif"), ('!', "Exclamative"), ('-', "Negatif"), ('=', "Faute")] := by
      have h2 : SKILL_EVAL_MAPPINGS.lookup "Serve" = some [('#', "Ace"), ('/', "Bon"), ('+', "Positif"), ('!', "Exclamative"), ('-', "Negatif"), ('=', "Faute")] := rfl
      exact Option.some.inj (hm.symm.trans h2)
    subst hmap
    rw [compute_stats_erreur_lookup df _ "Serve" "negative_last"
      [("% Ace", .symbolsFirst), ("% Positif", .specificSum ['#', '+', '/']), ("% Frequence", .specificSum ['#', '+', '/', '!', '-'])]
      hne hhead rfl rfl (by decide)]
    rw [show calculate_error_count
      (mkSymbolsData df [('#', "Ace"), ('/', "Bon"), ('+', "Positif"), ('!', "Exclamative"), ('-', "Negatif"), ('=', "Faute")]) "negative_last" = countSym df '=' from rfl]
    simp only [show errorSymbols "Serve" [('#', "Ace"), ('/', "Bon"), ('+', "Positif"), ('!', "Exclamative"), ('-', "Negatif"), ('=', "Faute")] = (['='] : List Char) from rfl]
    rw [countP_mem_single]
    congr 1
    ring_nf
  · subst h
    have hmap : mapping = [('#', "Parfaite"), ('+', "Bonne"), ('!', "Ok"), ('-', "Mauvaise"), ('/', "Nulle"), ('=', "Faute")] := by
      have h2 : SKILL_EVAL_MAPPINGS.lookup "Set" = some [('#', "Parfaite"), ('+', "Bonne"), ('!', "Ok"), ('-', "Mauvaise"), ('/', "Nulle"), ('=', "Faute")] := rfl
      exact Option.some.inj (hm.symm.trans h2)
    subst hmap
    rw [compute_stats_erreur_lookup df _ "Set" "negative_last"
      [("% Jouable", .specificSum ['#', '+', '/', '!', '-']), ("% Faute", .specificSum ['=']), ("% FSO", .emptyF), ("% SO", .emptyF)]
      hne hhead rfl rfl (by decide)]
    rw [show calculate_error_count
      (mkSymbolsData df [('#', "Parfaite"), ('+', "Bonne"), ('!', "Ok"), ('-', "Mauvaise"), ('/', "Nulle"), ('=', "Faute")]) "negative_last" = countSym df '=' from rfl]
    simp only [show errorSymbols "Set" [('#', "Parfaite"), ('+', "Bonne"), ('!', "Ok"), ('-', "Mauvaise"), ('/', "Nulle"), ('=', "Faute")] = (['='] : List Char) from rfl]
    rw [countP_mem_single]
    congr 1
    ring_nf
  · subst h
    have hmap : mapping = [('#', "Point"), ('+', "Positif"), ('!', "Soutenu"), ('-', "Négatif"), ('/', "Contré"), ('=', "Faute")] := by
      have h2 : SKILL_EVAL_MAPPINGS.lookup "Attack" = some [('#', "Point"), ('+', "Positif"), ('!', "Soutenu"), ('-', "Négatif"), ('/', "Contré"), ('=', "Faute")] := rfl
      exact Option.some.inj (hm.symm.trans h2)
    subst hmap
    rw [compute_stats_erreur_lookup df _ "Attack" "negative_last_two"
      [("% Kill", .symbolsFirst), ("% /", .specificSum ['/'])]
      hne hhead rfl rfl (by decide)]
    rw [show calculate_error_count
      (mkSymbolsData df [('#', "Point"), ('+', "Positif"), ('!', "Soutenu"), ('-', "Négatif"), ('/', "Contré"), ('=', "Faute")]) "negative_last_two" = countSym df '/' + (countSym df '=' + 0) from rfl]
    simp only [show errorSymbols "Attack" [('#', "Point"), ('+', "Positif"), ('!', "Soutenu"), ('-', "Négatif"), ('/', "Contré"), ('=', "Faute")] = (['/', '='] : List Char) from rfl]
    rw [countP_mem_pair df '/' '=' (by decide)]
    congr 1
    push_cast
    ring_nf
  · subst h
    have hmap : mapping = [('#', "Parfaite"), ('+', "Positif"), ('!', "Exclamative"), ('-', "Négatif"), ('/', "Retour direct"), ('=', "Ace reçu")] := by
      have h2 : SKILL_EVAL_MAPPINGS.lookup "Reception" = some [('#', "Parfaite"), ('+', "Positif"), ('!', "Exclamative"), ('-', "Négatif"), ('/', "Retour direct"), ('=', "Ace reçu")] := rfl
      exact Option.some.inj (hm.symm.trans h2)
    subst hmap
    rw [compute_stats_erreur_lookup df _ "Reception" "negative_last_two"
      [("% Parfaite", .symbolsFirst)]
      hne hhead rfl rfl (by decide)]
    rw [show calculate_error_count
      (mkSymbolsData df [('#', "Parfaite"), ('+', "Positif"), ('!', "Exclamative"), ('-', "Négatif"), ('/', "Retour direct"), ('=', "Ace reçu")]) "negative_last_two" = countSym df '/' + (countSym df '=' + 0) from rfl]
    simp only [show errorSymbols "Reception" [('#', "Parfaite"), ('+', "Positif"), ('!', "Exclamative"), ('-', "Négatif"), ('/', "Retour direct"), ('=', "Ace reçu")] = (['/', '='] : List Char) from rfl]
    rw [countP_mem_pair df '/' '=' (by decide)]
    congr 1
    push_cast
    ring_nf
  · subst h
    have hmap : mapping = [('#', "Kill bloc"), ('+', "Positif"), ('!', "Soutenu"), ('-', "Négatif"), ('/', "Faute de filet"), ('=', "Block out")] := by
      have h2 : SKILL_EVAL_MAPPINGS.lookup "Block" = some [('#', "Kill bloc"), ('+', "Positif"), ('!', "Soutenu"), ('-', "Négatif"), ('/', "Faute de filet"), ('=', "Block out")] := rfl
      exact Option.some.inj (hm.symm.trans h2)
    subst hmap
    rw [compute_stats_erreur_lookup df _ "Block" "negative_last_two"
      [("% Kill", .symbolsFirst)]
      hne hhead rfl rfl (by decide)]
    rw [show calculate_error_count
      (mkSymbolsData df [('#', "Kill bloc"), ('+', "Positif"), ('!', "Soutenu"), ('-', "Négatif"), ('/', "Faute de filet"), ('=', "Block out")]) "negative_last_two" = countSym df '/' + (countSym df '=' + 0) from rfl]
    simp only [show errorSymbols "Block" [('#', "Kill bloc"), ('+', "Positif"), ('!', "Soutenu"), ('-', "Négatif"), ('/', "Faute de filet"), ('=', "Block out")] = (['/', '='] : List Char) from rfl]
    rw [countP_mem_pair df '/' '=' (by decide)]
    congr 1
    push_cast
    ring_nf
  · subst h
    have hmap : mapping = [('#', "Parfaite"), ('+', "Bonne"), ('!', "Soutien de bloc"), ('-', "Mauvaise"), ('/', "Renvoi direct"), ('=', "Non defendu")] := by
      have h2 : SKILL_EVAL_MAPPINGS.lookup "Dig" = some [('#', "Parfaite"), ('+', "Bonne"), ('!', "Soutien de bloc"), ('-', "Mauvaise"), ('/', "Renvoi direct"), ('=', "Non defendu")] := rfl
      exact Option.some.inj (hm.symm.trans h2)
    subst hmap
    rw [compute_stats_erreur_lookup df _ "Dig" "negative_last_two"
      [("% Parfaite", .symbolsFirst)]
      hne hhead rfl rfl (by decide)]
    rw [show calculate_error_count
      (mkSymbolsData df [('#', "Parfaite"), ('+', "Bonne"), ('!', "Soutien de bloc"), ('-', "Mauvaise"), ('/', "Renvoi direct"), ('=', "Non defendu")]) "negative_last_two" = countSym df '/' + (countSym df '=' + 0) from rfl]
    simp only [show errorSymbols "Dig" [('#', "Parfaite"), ('+', "Bonne"), ('!', "Soutien de bloc"), ('-', "Mauvaise"), ('/', "Renvoi direct"), ('=', "Non defendu")] = (['/', '='] : List Char) from rfl]
    rw [countP_mem_pair df '/' '=' (by decide)]
    congr 1
    push_cast
    ring_nf


/-- Witness for C6: one faulted attack; `% Erreur = 100.0`. -/
theorem C6_error_rate_witness :
    ("Attack" ∈ (["Serve", "Set", "Attack", "Reception", "Block", "Dig"] : List String)) ∧
    SKILL_EVAL_MAPPINGS.lookup "Attack" =
      some [('#', "Point"), ('+', "Positif"), ('!', "Soutenu"), ('-', "Négatif"), ('/', "Contré"), ('=', "Faute")] ∧
    ([mkAct "Attack" '='] : List Action) ≠ [] ∧
    ([mkAct "Attack" '='] : List Action).head?.map Action.skill = some "Attack" ∧
    (compute_skill_stats [mkAct "Attack" '=']
        [('#', "Point"), ('+', "Positif"), ('!', "Soutenu"), ('-', "Négatif"), ('/', "Contré"), ('=', "Faute")]).lookup "% Erreur" =
      some (pyRound1 (100 * (([mkAct "Attack" '='] : List Action).countP (fun a =>
        decide (a.evaluation_code ∈ errorSymbols "Attack"
          [('#', "Point"), ('+', "Positif"), ('!', "Soutenu"), ('-', "Négatif"), ('/', "Contré"), ('=', "Faute")])) : ℚ) /
        ([mkAct "Attack" '='] : List Action).length)) :=
  ⟨by decide, by decide, by decide, by rfl,
   C6_error_rate "Attack" [('#', "Point"), ('+', "Positif"), ('!', "Soutenu"), ('-', "Négatif"), ('/', "Contré"), ('=', "Faute")]
     [mkAct "Attack" '='] (by decide) (by decide) (by decide) (by rfl)⟩

/-! ## Claim C9 — sum of per-label counts -/

/-- A key that fails lookup is not among the keys. -/
theorem lookup_none_not_mem (s : Stats) (k : String) (h : s.lookup k = none) :
    k ∉ statKeys s := by
  induction s with
  | nil => simp [statKeys]
  | cons p t ih =>
    obtain ⟨a, b⟩ := p
    by_cases hak : k = a
    · subst hak
      simp [List.lookup_cons] at h
    · have hka : (k == a) = false := beq_eq_false_iff_ne.mpr hak
      simp only [List.lookup_cons, hka] at h
      simp only [statKeys, List.map_cons, List.mem_cons, not_or]
      exact ⟨hak, ih h⟩

/-- A key among the keys looks up successfully. -/
theorem not_mem_lookup_none (s : Stats) (k : String) (h : k ∉ statKeys s) :
    s.lookup k = none := by
  induction s with
  | nil => rfl
  | cons p t ih =>
    obtain ⟨a, b⟩ := p
    simp only [statKeys, List.map_cons, List.mem_cons, not_or] at h
    have hka : (k == a) = false := beq_eq_false_iff_ne.mpr h.1
    simp only [List.lookup_cons, hka]
    exact ih (by simpa [statKeys] using h.2)

/-- Updating an absent key appends it: total of values grows by the new
value. -/
theorem vsum_dset_absent (s : Stats) (k : String) (v : ℚ)
    (h : s.lookup k = none) :
    ((dset s k v).map Prod.snd).sum = (s.map Prod.snd).sum + v := by
  simp [dset, h]

/-- Updating a present key under unique keys replaces its value. -/
theorem vsum_dset_present (s : Stats) (k : String) (v w : ℚ)
    (hnd : (statKeys s).Nodup) (h : s.lookup k = some w) :
    ((dset s k v).map Prod.snd).sum = (s.map Prod.snd).sum - w + v := by
  induction s with
  | nil => simp [List.lookup_cons] at h
  | cons p t ih =>
    obtain ⟨a, b⟩ := p
    simp only [statKeys, List.map_cons, List.nodup_cons] at hnd
    by_cases hak : k = a
    · subst hak
      simp only [List.lookup_cons, beq_self_eq_true] at h
      have hb : b = w := by simpa using h
      subst hb
      have htn : t.lookup k = none := not_mem_lookup_none t k (by
        simpa [statKeys] using hnd.1)
      have hc : (((k, b) :: t).lookup k).isSome := by simp [List.lookup_cons]
      simp only [dset, if_pos hc, List.map_cons, if_true, map_keyupdate_id t k v htn]
      simp only [List.map_cons, List.sum_cons]
      ring
    · have hka : (k == a) = false := beq_eq_false_iff_ne.mpr hak
      simp only [List.lookup_cons, hka] at h
      have hts : (t.lookup k).isSome := by simp [h]
      have hc : (((a, b) :: t).lookup k).isSome := by
        simp [List.lookup_cons, hka, h]
      have hak2 : a ≠ k := fun hh => hak hh.symm
      simp only [dset, if_pos hc, List.map_cons, if_neg hak2, List.sum_cons]
      have := ih hnd.2 h
      simp only [dset, if_pos hts] at this
      rw [this]
      ring

/-- The `labelCounts` fold keeps keys unique and adds each mapping row’s
symbol count to the total of values. -/
theorem labelCounts_fold (df : List Action) (m : EvalMapping) :
    ∀ lc : Stats, (statKeys lc).Nodup →
      (statKeys (m.foldl (fun lc p =>
        dset lc p.2 (((lc.lookup p.2).getD 0) + (countSym df p.1 : ℚ))) lc)).Nodup ∧
      ((m.foldl (fun lc p =>
        dset lc p.2 (((lc.lookup p.2).getD 0) + (countSym df p.1 : ℚ))) lc).map
          Prod.snd).sum =
        (lc.map Prod.snd).sum + (m.map (fun p => (countSym df p.1 : ℚ))).sum := by
  induction m with
  | nil => intro lc h; exact ⟨h, by simp⟩
  | cons p t ih =>
    intro lc h
    simp only [List.foldl_cons, List.map_cons, List.sum_cons]
    cases hl : lc.lookup p.2 with
    | none =>
      simp only [Option.getD_none]
      have hkeys : statKeys (dset lc p.2 (0 + (countSym df p.1 : ℚ))) =
          statKeys lc ++ [p.2] := by
        simp [dset, hl, statKeys]
      have hnd2 : (statKeys (dset lc p.2 (0 + (countSym df p.1 : ℚ)))).Nodup := by
        rw [hkeys]
        refine List.Nodup.append h (List.nodup_singleton _) ?_
        intro x hx hx2
        simp only [List.mem_singleton] at hx2
        subst hx2
        exact lookup_none_not_mem lc p.2 hl hx
      obtain ⟨ihk, ihs⟩ := ih _ hnd2
      refine ⟨ihk, ?_⟩
      rw [ihs, vsum_dset_absent lc p.2 _ hl]
      ring
    | some w =>
      simp only [Option.getD_some]
      have hkeys : statKeys (dset lc p.2 (w + (countSym df p.1 : ℚ))) =
          statKeys lc := by
        simp only [dset, hl, Option.isSome_some, if_true, statKeys, List.map_map]
        apply List.map_congr_left
        intro x hx
        by_cases hxk : x.1 = p.2 <;> simp [hxk]
      have hnd2 : (statKeys (dset lc p.2 (w + (countSym df p.1 : ℚ)))).Nodup := by
        rw [hkeys]; exact h
      obtain ⟨ihk, ihs⟩ := ih _ hnd2
      refine ⟨ihk, ?_⟩
      rw [ihs, vsum_dset_present lc p.2 _ w h hl]
      ring

/-- Indicator sums over the mapping count the symbol. -/
theorem sum_indicator_count (c : Char) (m : EvalMapping) :
    (m.map (fun p => if c = p.1 then 1 else 0)).sum = (m.map Prod.fst).count c := by
  induction m with
  | nil => rfl
  | cons p t ih =>
    simp only [List.map_cons, List.sum_cons, List.count_cons, ih]
    by_cases hc : c = p.1
    · simp [hc, beq_iff_eq]
      omega
    · have : (p.1 == c) = false := beq_eq_false_iff_ne.mpr (fun hh => hc hh.symm)
      simp [hc, this]

/-- Under unique symbols covering every code, the per-symbol counts sum to
the slice length. -/
theorem sum_countSym_eq_length (df : List Action) (m : EvalMapping)
    (hnd : (m.map Prod.fst).Nodup)
    (hcov : ∀ a ∈ df, a.evaluation_code ∈ m.map Prod.fst) :
    (m.map (fun p => countSym df p.1)).sum = df.length := by
  induction df with
  | nil =>
    simp only [List.length_nil]
    apply List.sum_eq_zero
    intro x hx
    simp only [List.mem_map] at hx
    obtain ⟨p, _, rfl⟩ := hx
    simp [countSym]
  | cons a t ih =>
    have hcov2 : ∀ x ∈ t, x.evaluation_code ∈ m.map Prod.fst :=
      fun x hx => hcov x (List.mem_cons_of_mem a hx)
    have hsplit : (m.map (fun p => countSym (a :: t) p.1)).sum =
        (m.map (fun p => countSym t p.1)).sum +
        (m.map (fun p => if a.evaluation_code = p.1 then 1 else 0)).sum := by
      rw [← List.sum_map_add]
      apply congrArg
      apply List.map_congr_left
      intro p _
      simp only [countSym, List.countP_cons]
      by_cases hp : a.evaluation_code = p.1 <;> simp [hp]
    rw [hsplit, ih hcov2, sum_indicator_count,
      List.count_eq_one_of_mem hnd (hcov a (List.mem_cons_self a t))]
    simp [List.length_cons]

/-- **C9 amended**: with distinct labels, distinct symbols (a dict
invariant) and every code of the slice among the mapping’s symbols, the
per-label counts sum to `Total`. -/
theorem C9_label_counts_sum (df : List Action) (mapping : EvalMapping)
    (_hne : df ≠ [])
    (hsym : (mapping.map Prod.fst).Nodup)
    (_hlab : (mapping.map Prod.snd).Nodup)
    (hcov : ∀ a ∈ df, a.evaluation_code ∈ mapping.map Prod.fst) :
    ((labelCounts df mapping).map Prod.snd).sum = (df.length : ℚ) := by
  have h := (labelCounts_fold df mapping [] (by simp [statKeys])).2
  simp only [labelCounts]
  rw [h]
  simp only [List.map_nil, List.sum_nil, zero_add]
  have h2 := sum_countSym_eq_length df mapping hsym hcov
  calc (mapping.map (fun p => (countSym df p.1 : ℚ))).sum
      = ((mapping.map (fun p => countSym df p.1)).map (Nat.cast : ℕ → ℚ)).sum := by
        rw [List.map_map]
        rfl
    _ = ((mapping.map (fun p => countSym df p.1)).sum : ℚ) :=
        (Nat.cast_list_sum _).symm
    _ = (df.length : ℚ) := by rw [h2]

/-- Counterexample to **C9** as stated: a valid action whose code is
outside the mapping’s symbols breaks the sum property even with
pairwise-distinct labels. -/
theorem C9_label_counts_counterexample :
    (([actC9] : List Action) ≠ []) ∧ (mapC9.map Prod.snd).Nodup ∧
    ((labelCounts [actC9] mapC9).map Prod.snd).sum ≠
      (([actC9] : List Action).length : ℚ) := by
  refine ⟨by decide, by decide, ?_⟩
  simp only [labelCounts, dset, countSym, actC9, mkAct, mapC9,
    List.foldl_cons, List.foldl_nil, List.countP_cons, List.countP_nil,
    List.lookup_cons, List.lookup_nil, String.reduceBEq, String.reduceEq,
    Option.getD_none, Option.isSome_none, Option.isSome_some, Bool.false_eq_true,
    if_false, reduceIte, List.nil_append, List.cons_append, List.map_cons,
    List.map_nil, List.sum_cons, List.sum_nil, List.length_cons, List.length_nil,
    decide_eq_true_eq,
    (by decide : ('#' : Char) ≠ '+'), (by decide : ('#' : Char) ≠ '-')]
  norm_num

/-- Witness for the amended C9. -/
theorem C9_label_counts_sum_witness :
    (([mkAct "X" '#'] : List Action) ≠ []) ∧
    (([('#', "A"), ('+', "B")] : EvalMapping).map Prod.fst).Nodup ∧
    (([('#', "A"), ('+', "B")] : EvalMapping).map Prod.snd).Nodup ∧
    (∀ a ∈ ([mkAct "X" '#'] : List Action),
      a.evaluation_code ∈ ([('#', "A"), ('+', "B")] : EvalMapping).map Prod.fst) ∧
    ((labelCounts [mkAct "X" '#'] [('#', "A"), ('+', "B")]).map Prod.snd).sum =
      (([mkAct "X" '#'] : List Action).length : ℚ) :=
  ⟨by decide, by decide, by decide, by decide,
   C9_label_counts_sum [mkAct "X" '#'] [('#', "A"), ('+', "B")]
     (by decide) (by decide) (by decide) (by decide)⟩

/-! ## Claims C3 and C4 — FSO/SO sequence metrics -/

/-- **C3**: `calculate_set_fso` counts as FSO situations exactly those
filtered passes whose immediately preceding action is a Reception and
whose immediately following action is an Attack, counts as successful
those whose Attack has evaluation code `#`, and returns
`% FSO = round(100 * successful / total, 1)` with 0.0 when the total is
0; a pass with no preceding or no following row is excluded from both
numerator and denominator. -/
theorem C3_fso_spec (p : Player) (dfp dfn : List (Nat × Action))
    (m : String) (mf sf : Option (List Nat)) (stype : String)
    (h1 : p.df_prev = some dfp) (h2 : p.df_next = some dfn) :
    (calculate_set_fso p m mf sf stype "Tous").total_fso_situations =
      (filter_set_df p m mf sf stype).countP (isFsoSituation dfp dfn) ∧
    (calculate_set_fso p m mf sf stype "Tous").successful_fso =
      (filter_set_df p m mf sf stype).countP (isSuccessfulFsoSituation dfp dfn) ∧
    (calculate_set_fso p m mf sf stype "Tous").pctFSO =
      (if (filter_set_df p m mf sf stype).countP (isFsoSituation dfp dfn) = 0 then 0
       else pyRound1 (100 *
         ((filter_set_df p m mf sf stype).countP
           (isSuccessfulFsoSituation dfp dfn) : ℚ) /
         ((filter_set_df p m mf sf stype).countP (isFsoSituation dfp dfn) : ℚ))) := by
  simp only [calculate_set_fso, h1, h2]
  set S := filter_set_df p m mf sf stype with hS
  have himp : ∀ r ∈ S, isSuccessfulFsoSituation dfp dfn r = true →
      isFsoSituation dfp dfn r = true := by
    intro r _ hr
    simp only [isSuccessfulFsoSituation, Bool.and_eq_true] at hr
    exact hr.1
  have htot : ∀ qx : SeqRow3 → Bool,
      ((S.filterMap (fun r =>
        match dfp.lookup r.1, dfn.lookup r.1 with
        | some prev, some next =>
          if "Tous" ≠ "Tous" ∧ is_valid_attack next "Tous" = false then none
          else some ⟨prev.skill, next.skill, next.evaluation_code⟩
        | _, _ => none)).filter qx).length =
      S.countP (fun r =>
        match dfp.lookup r.1, dfn.lookup r.1 with
        | some prev, some next => qx ⟨prev.skill, next.skill, next.evaluation_code⟩
        | _, _ => false) := by
    intro qx
    rw [← List.countP_eq_length_filter, List.countP_filterMap]
    apply List.countP_congr
    intro r _
    cases hp : dfp.lookup r.1 <;> cases hn : dfn.lookup r.1 <;> simp
  have e1 : S.countP (fun r =>
      match dfp.lookup r.1, dfn.lookup r.1 with
      | some prev, some next =>
          (decide (prev.skill = "Reception") && decide (next.skill = "Attack") :
            Bool)
      | _, _ => false) = S.countP (isFsoSituation dfp dfn) := by
    apply List.countP_congr
    intro r _
    unfold isFsoSituation
    cases hp : dfp.lookup r.1 <;> cases hn : dfn.lookup r.1 <;> simp
  have e2 : S.countP (fun r =>
      match dfp.lookup r.1, dfn.lookup r.1 with
      | some prev, some next =>
          (decide (next.evaluation_code = '#') &&
            (decide (prev.skill = "Reception") && decide (next.skill = "Attack")) : Bool)
      | _, _ => false) = S.countP (isSuccessfulFsoSituation dfp dfn) := by
    apply List.countP_congr
    intro r _
    unfold isSuccessfulFsoSituation isFsoSituation
    cases hp : dfp.lookup r.1 <;> cases hn : dfn.lookup r.1 <;> simp <;> tauto
  by_cases hE : S.isEmpty
  · have hSnil : S = [] := List.isEmpty_iff.mp hE
    rw [hSnil]
    simp
  · simp only [hE, Bool.false_eq_true, if_false]
    rw [List.filter_filter]
    rw [htot (fun t => decide (t.prev_skill = "Reception") &&
        decide (t.next_skill = "Attack"))]
    rw [htot (fun t => decide (t.next_evaluation = '#') &&
        (decide (t.prev_skill = "Reception") && decide (t.next_skill = "Attack")))]
    rw [e1, e2]
    by_cases h0 : S.countP (isFsoSituation dfp dfn) = 0
    · rw [if_pos h0, if_pos h0]
      have hle : S.countP (isSuccessfulFsoSituation dfp dfn) ≤
          S.countP (isFsoSituation dfp dfn) := List.countP_mono_left himp
      exact ⟨h0.symm, (Nat.le_zero.mp (h0 ▸ hle)).symm, rfl⟩
    · rw [if_neg h0, if_neg h0]
      refine ⟨rfl, rfl, ?_⟩
      ring_nf

/-- **C4**: the number of FSO situations is at most the number of SO
situations for the same filters. -/
theorem C4_fso_le_so (p : Player) (m : String) (mf sf : Option (List Nat))
    (stype atype : String) :
    (calculate_set_fso p m mf sf stype atype).total_fso_situations ≤
      (calculate_set_so p m mf sf stype atype).total_so_situations := by
  unfold calculate_set_fso calculate_set_so
  cases hp : p.df_prev with
  | none => cases hn : p.df_next <;> simp
  | some dfp =>
    cases hn : p.df_next with
    | none => simp
    | some dfn =>
      set S := filter_set_df p m mf sf stype with hS
      by_cases hE : S.isEmpty
      · simp [hE]
      · simp only [hE, Bool.false_eq_true, if_false]
        rw [apply_ite FsoStats.total_fso_situations,
          apply_ite SoStats.total_so_situations]
        have hle : ((S.filterMap (fun r =>
            match dfp.lookup r.1, dfn.lookup r.1 with
            | some prev, some next =>
              if atype ≠ "Tous" ∧ is_valid_attack next atype = false then none
              else some (⟨prev.skill, next.skill, next.evaluation_code⟩ : SeqRow3)
            | _, _ => none)).filter (fun t =>
              decide (t.prev_skill = "Reception") &&
              decide (t.next_skill = "Attack"))).length ≤
          ((S.filterMap (fun r =>
            match dfn.lookup r.1 with
            | some next =>
              if atype ≠ "Tous" ∧ is_valid_attack next atype = false then none
              else some (⟨next.skill, next.evaluation_code⟩ : SeqRow2)
            | none => none)).filter (fun t =>
              decide (t.next_skill = "Attack"))).length := by
          rw [← List.countP_eq_length_filter, List.countP_filterMap,
            ← List.countP_eq_length_filter, List.countP_filterMap]
          apply List.countP_mono_left
          intro r _ hr
          cases hprev : dfp.lookup r.1 with
          | none => simp [hprev] at hr
          | some prev =>
            cases hnext : dfn.lookup r.1 with
            | none => simp [hprev, hnext] at hr
            | some next =>
              simp only [hprev, hnext] at hr ⊢
              by_cases hat : atype ≠ "Tous" ∧ is_valid_attack next atype = false
              · rw [if_pos hat] at hr
                simp at hr
              · rw [if_neg hat] at hr ⊢
                simp only [Option.map_some', Option.getD_some, Bool.and_eq_true,
                  decide_eq_true_eq] at hr ⊢
                exact hr.2
        split_ifs with hf hs hs <;> simp_all


/-- Witness for C3: one pass between a reception and a scoring attack. -/
theorem C3_fso_spec_witness :
    setP.df_prev = some [(1, mkAct "Reception" '+')] ∧
    setP.df_next = some [(1, mkAct "Attack" '#')] ∧
    ((calculate_set_fso setP "Tout" none none "Tous" "Tous").total_fso_situations =
      (filter_set_df setP "Tout" none none "Tous").countP
        (isFsoSituation [(1, mkAct "Reception" '+')] [(1, mkAct "Attack" '#')]) ∧
    (calculate_set_fso setP "Tout" none none "Tous" "Tous").successful_fso =
      (filter_set_df setP "Tout" none none "Tous").countP
        (isSuccessfulFsoSituation [(1, mkAct "Reception" '+')]
          [(1, mkAct "Attack" '#')]) ∧
    (calculate_set_fso setP "Tout" none none "Tous" "Tous").pctFSO =
      (if (filter_set_df setP "Tout" none none "Tous").countP
          (isFsoSituation [(1, mkAct "Reception" '+')] [(1, mkAct "Attack" '#')]) = 0
       then 0
       else pyRound1 (100 *
         ((filter_set_df setP "Tout" none none "Tous").countP
           (isSuccessfulFsoSituation [(1, mkAct "Reception" '+')]
             [(1, mkAct "Attack" '#')]) : ℚ) /
         ((filter_set_df setP "Tout" none none "Tous").countP
           (isFsoSituation [(1, mkAct "Reception" '+')]
             [(1, mkAct "Attack" '#')]) : ℚ)))) :=
  ⟨rfl, rfl,
   C3_fso_spec setP [(1, mkAct "Reception" '+')] [(1, mkAct "Attack" '#')]
     "Tout" none none "Tous" rfl rfl⟩

/-! ## Claim C8 — team aggregation adds up percentage entries too -/

set_option maxHeartbeats 2000000 in
/-- **C8** fails on `utils.aggregate_team_stats`: the team record adds up
every key of the player records, the pre-computed percentage entries
included — `% Parfaite` of the two players is `100.0 + 0.0 = 100.0` in
the returned record — although recomputing it from the summed label
counts (1 `Parfaite` of 4 `Total`) gives `round(100 * 1 / 4, 1) = 25.0`.
(`skill.py`’s `display_team_stats` instead adds only the label-count
keys it is given and recomputes percentages from the sums.) -/
theorem C8_aggregate_sums_percentages :
    aggregate_team_stats [p1C8, p2C8] "Reception" "Tout" none none = .ok
      ([("Parfaite", 1), ("Positif", 0), ("Exclamative", 0), ("Négatif", 3),
       ("Retour direct", 0), ("Ace reçu", 0), ("% Parfaite", 100), ("% Positif", 0),
       ("% Exclamative", 0), ("% Négatif", 100), ("% Retour direct", 0),
       ("% Ace reçu", 0), ("% Efficacité", 100), ("% Erreur", 0), ("Total", 4)] : Stats) ∧
    okLookup (aggregate_team_stats [p1C8, p2C8] "Reception" "Tout" none none)
      "% Parfaite" = some 100 ∧
    okLookup (aggregate_team_stats [p1C8, p2C8] "Reception" "Tout" none none)
      "Parfaite" = some 1 ∧
    okLookup (aggregate_team_stats [p1C8, p2C8] "Reception" "Tout" none none)
      "Total" = some 4 ∧
    pyRound1 (100 * 1 / 4) = 25 ∧ (100 : ℚ) ≠ 25 := by
  have hdf1 : get_action_df p1C8.df "Reception" "Tout" none none =
      [(0, mkAct "Reception" '#')] := by decide
  have hdf2 : get_action_df p2C8.df "Reception" "Tout" none none =
      [(1, mkAct "Reception" '-'), (2, mkAct "Reception" '-'),
       (3, mkAct "Reception" '-')] := by decide
  have h1 : get_skill_stats p1C8 "Reception" "Tout" none none = .ok
      ([("Total", 1), ("Parfaite", 1), ("Positif", 0), ("Exclamative", 0),
       ("Négatif", 0), ("Retour direct", 0), ("Ace reçu", 0), ("% Parfaite", 100),
       ("% Positif", 0), ("% Exclamative", 0), ("% Négatif", 0),
       ("% Retour direct", 0), ("% Ace reçu", 0), ("% Efficacité", 100),
       ("% Erreur", 0)] : Stats) := by
    simp only [hdf1, get_skill_stats, compute_skill_stats, labelCounts,
    mkSymbolsData, countSym, calculate_error_count,
    calculate_efficiency_numerator, evaluate_metric_formula, dset,
    SKILL_EVAL_MAPPINGS, EFFICIENCY_CALCULATION, ERROR_CALCULATION,
    SPECIAL_METRICS, mkAct, List.lookup_cons, List.lookup_nil,
    List.countP_cons, List.countP_nil, List.foldl_cons, List.foldl_nil,
    List.map_cons, List.map_nil, List.length_cons, List.length_nil,
    List.getLast?_cons_cons, List.getLast?_singleton, List.take_succ_cons,
    List.drop_succ_cons, List.drop_zero, List.take_zero, List.sum_cons,
    List.sum_nil, Option.getD_none, Option.getD_some, Option.isSome_none,
    Option.isSome_some, String.reduceEq, String.reduceBEq, reduceIte,
    Nat.reduceAdd, Nat.reduceLeDiff, decide_eq_true_eq, Bool.false_eq_true,
    if_false, if_true, List.nil_append, List.cons_append, List.append_nil,
    String.reduceAppend,
    (by decide : ('#' : Char) ≠ '+'), (by decide : ('#' : Char) ≠ '-'),
    (by decide : ('#' : Char) ≠ '!'), (by decide : ('#' : Char) ≠ '/'),
    (by decide : ('#' : Char) ≠ '='),
    (by decide : ('-' : Char) ≠ '#'), (by decide : ('-' : Char) ≠ '+'),
    (by decide : ('-' : Char) ≠ '!'), (by decide : ('-' : Char) ≠ '/'),
    (by decide : ('-' : Char) ≠ '=')]
    norm_num [pyRound1]
  have h2 : get_skill_stats p2C8 "Reception" "Tout" none none = .ok
      ([("Total", 3), ("Parfaite", 0), ("Positif", 0), ("Exclamative", 0),
       ("Négatif", 3), ("Retour direct", 0), ("Ace reçu", 0), ("% Parfaite", 0),
       ("% Positif", 0), ("% Exclamative", 0), ("% Négatif", 100),
       ("% Retour direct", 0), ("% Ace reçu", 0), ("% Efficacité", 0),
       ("% Erreur", 0)] : Stats) := by
    simp only [hdf2, get_skill_stats, compute_skill_stats, labelCounts,
    mkSymbolsData, countSym, calculate_error_count,
    calculate_efficiency_numerator, evaluate_metric_formula, dset,
    SKILL_EVAL_MAPPINGS, EFFICIENCY_CALCULATION, ERROR_CALCULATION,
    SPECIAL_METRICS, mkAct, List.lookup_cons, List.lookup_nil,
    List.countP_cons, List.countP_nil, List.foldl_cons, List.foldl_nil,
    List.map_cons, List.map_nil, List.length_cons, List.length_nil,
    List.getLast?_cons_cons, List.getLast?_singleton, List.take_succ_cons,
    List.drop_succ_cons, List.drop_zero, List.take_zero, List.sum_cons,
    List.sum_nil, Option.getD_none, Option.getD_some, Option.isSome_none,
    Option.isSome_some, String.reduceEq, String.reduceBEq, reduceIte,
    Nat.reduceAdd, Nat.reduceLeDiff, decide_eq_true_eq, Bool.false_eq_true,
    if_false, if_true, List.nil_append, List.cons_append, List.append_nil,
    String.reduceAppend,
    (by decide : ('#' : Char) ≠ '+'), (by decide : ('#' : Char) ≠ '-'),
    (by decide : ('#' : Char) ≠ '!'), (by decide : ('#' : Char) ≠ '/'),
    (by decide : ('#' : Char) ≠ '='),
    (by decide : ('-' : Char) ≠ '#'), (by decide : ('-' : Char) ≠ '+'),
    (by decide : ('-' : Char) ≠ '!'), (by decide : ('-' : Char) ≠ '/'),
    (by decide : ('-' : Char) ≠ '=')]
    norm_num [pyRound1]
  have hagg : aggregate_team_stats [p1C8, p2C8] "Reception" "Tout" none none =
      .ok ([("Parfaite", 1), ("Positif", 0), ("Exclamative", 0), ("Négatif", 3),
       ("Retour direct", 0), ("Ace reçu", 0), ("% Parfaite", 100), ("% Positif", 0),
       ("% Exclamative", 0), ("% Négatif", 100), ("% Retour direct", 0),
       ("% Ace reçu", 0), ("% Efficacité", 100), ("% Erreur", 0), ("Total", 4)] : Stats) := by
    simp only [aggregate_team_stats, List.foldlM_cons, List.foldlM_nil, h1, h2,
      Except.bind, bind, Except.map, pure, Except.pure, statKeys, dset,
      List.map_cons, List.map_nil, List.foldl_cons, List.foldl_nil,
      List.lookup_cons, List.lookup_nil, List.mem_cons, List.not_mem_nil,
      String.reduceEq, String.reduceBEq, reduceIte, Option.getD_none,
      Option.getD_some, Option.isSome_none, Option.isSome_some,
      Bool.false_eq_true, if_false, if_true, List.nil_append, List.cons_append,
      List.append_nil, ne_eq, not_false_eq_true, not_true_eq_false, and_true,
      and_false, true_and, false_and, or_false, false_or, not_or]
    norm_num
  refine ⟨hagg, ?_, ?_, ?_, by norm_num [pyRound1], by norm_num⟩ <;>
    rw [hagg] <;> rfl

end FFVB
